import Mathlib

/-!
Verification of the Mapping Museums visualisation core: the greedy
haversine clusterer, the point-size scale, the region/date filter
propagation chain and its error handling, as implemented in
`src/scripts/classes/Map.js` and `src/scripts/data/map-data.js`.

Modelling conventions:
- JS numbers used for coordinates, centroids and counts are modelled as
  exact rationals (`ℚ`) and naturals; year fields as integers.
- A missing/unparseable closed-year (`NaN` after `+d.year_closed_low`)
  is modelled as `none : Option ℤ`; `NaN > date` is `false` in JS, which
  the `Option` match reproduces.
- The clusterer of `Map.js` is parametrised by the distance function so
  that its control flow can be studied for any linearly ordered distance
  codomain; the concrete `haversineDistance` (real-valued) instantiates it.
- JS `try { ... } catch (e) { console.log(e) }` is modelled by a body
  returning `Except String state` and a runner that restores the original
  state on `error`.
-/

namespace MappingMuseums

/-- One row of the points array built in `map-data.js`:
`[latitude, longitude, region, year_opened_low, year_opened_high, year_closed_low]`.
`yearClosedLow = none` models the `NaN` produced for missing closed years. -/
structure MPoint where
  lat : ℚ
  lon : ℚ
  region : String
  yearOpenedLow : ℤ
  yearOpenedHigh : ℤ
  yearClosedLow : Option ℤ
deriving Repr, DecidableEq

/-- A cluster (`group`) of `Map.js#groupCoordinates`: `[[lat, lon], count]`. -/
abbrev Group : Type := (ℚ × ℚ) × ℕ

/-- Centroid update on merge, from `mergeIntoClosestGroup` in `Map.js`:
`newLat = (groupPoint[0] * count + point[0]) / (count + 1)` (same for
longitude), and `group[1] += 1`. -/
def updateGroup (point : ℚ × ℚ) (g : Group) : Group :=
  (((g.1.1 * (g.2 : ℚ) + point.1) / ((g.2 : ℚ) + 1),
    (g.1.2 * (g.2 : ℚ) + point.2) / ((g.2 : ℚ) + 1)),
   g.2 + 1)

/-- The scan loop of `mergeIntoClosestGroup`: iterate over the groups with
their indices, carrying `(closestGroup, shortestDistance)`, initially
`(null, maxDistance)`; update the pair whenever a strictly smaller distance
is found. -/
def scanClosestAux {α : Type} [LinearOrder α] (dmap : Group → α) :
    List Group → ℕ → Option ℕ × α → Option ℕ × α
  | [], _, acc => acc
  | g :: gs, i, acc =>
      scanClosestAux dmap gs (i + 1) (if dmap g < acc.2 then (some i, dmap g) else acc)

/-- Merge a point into the closest group strictly within `maxDistance`, or
create a new singleton group; from `mergeIntoClosestGroup` in `Map.js`. -/
def mergeIntoClosestGroup {α : Type} [LinearOrder α]
    (dist : ℚ × ℚ → ℚ × ℚ → α) (maxDistance : α)
    (point : ℚ × ℚ) (groups : List Group) : List Group :=
  match (scanClosestAux (fun g => dist point g.1) groups 0 (none, maxDistance)).1 with
  | some i => List.modify (updateGroup point) i groups
  | none => groups ++ [((point.1, point.2), 1)]

/-- The clusterer `Map.js#groupCoordinates`: fold the points in input order
through `mergeIntoClosestGroup` starting from no groups, then rebuild each
pair (the final `groups.map(group => ([group[0], group[1]]))`). -/
def groupCoordinates {α : Type} [LinearOrder α]
    (dist : ℚ × ℚ → ℚ × ℚ → α) (maxDistance : α)
    (coordinates : List MPoint) : List Group :=
  ((coordinates.foldl
      (fun groups p => mergeIntoClosestGroup dist maxDistance (p.lat, p.lon) groups)
      []).map (fun g => (g.1, g.2)))

/-- Total of the cluster counts, `Map.js#totalNumberOfPoints`:
`d3.sum(data, d => d[1])`. -/
def totalNumberOfPoints (groups : List Group) : ℕ :=
  (groups.map (fun g => g.2)).sum

/-- The date predicate of `filterOnDate` in `map-data.js`:
`d[3] <= date && (d[5] > date || isNaN(d[5]))`, where `d[3]` is
`year_opened_low` and `d[5]` is `year_closed_low`; a JS comparison against
`NaN` is false, so the `none` branch of the match returns `true` only
through the explicit `isNaN` disjunct. -/
def datePred (date : ℤ) (d : MPoint) : Bool :=
  decide (d.yearOpenedLow ≤ date) &&
    (match d.yearClosedLow with
     | some c => decide (date < c)
     | none => true)

/-- First-occurrence key set of `d3.rollups`, which groups rows by key in
encounter order. -/
def dedupKeysAux : List ℤ → List ℤ → List ℤ
  | [], _ => []
  | k :: ks, seen =>
      if k ∈ seen then dedupKeysAux ks seen
      else k :: dedupKeysAux ks (k :: seen)

/-- Counting rollup `d3.rollups(data, D => D.length, key)` applied to the
already-extracted key list. -/
def rollupCounts (keys : List ℤ) : List (ℤ × ℕ) :=
  (dedupKeysAux keys []).map (fun k => (k, keys.count k))

/-- Insertion step of the ascending sort `roll.sort((a, b) => a[0] - b[0])`. -/
def insertSorted (x : ℤ × ℕ) : List (ℤ × ℕ) → List (ℤ × ℕ)
  | [] => [x]
  | y :: ys => if x.1 ≤ y.1 then x :: y :: ys else y :: insertSorted x ys

/-- Sort rollup rows into ascending key order, as
`roll.sort((a, b) => a[0] - b[0])` in `map-data.js`. -/
def sortByYear (l : List (ℤ × ℕ)) : List (ℤ × ℕ) :=
  l.foldr insertSorted []

/-- The line-chart aggregation `calculateRollup` of `map-data.js`: openings
counted per `year_opened_high` (`d[4]`), closures counted per
`year_closed_low` (`d[5]`) over the rows whose closed year is not `NaN`,
both sorted ascending. -/
def calculateRollup (data : List MPoint) : List (ℤ × ℕ) × List (ℤ × ℕ) :=
  (sortByYear (rollupCounts (data.map (fun d => d.yearOpenedHigh))),
   sortByYear (rollupCounts (data.filterMap (fun d => d.yearClosedLow))))

/-- The outlier-removal filter inside `filterLineChartData` of
`map-data.js`: `data.filter(d => !((d[3] == 1945 || d[3] == 1960) && (d[4] == 2017)))`,
with `d[3] = year_opened_low` and `d[4] = year_opened_high`. -/
def filterLineChartPoints (data : List MPoint) : List MPoint :=
  data.filter
    (fun d => !((d.yearOpenedLow == 1945 || d.yearOpenedLow == 1960) &&
      (d.yearOpenedHigh == 2017)))

/-- The function `filterLineChartData` of `map-data.js`: outlier removal
followed by the rollup aggregation. -/
def filterLineChartData (data : List MPoint) : List (ℤ × ℕ) × List (ℤ × ℕ) :=
  calculateRollup (filterLineChartPoints data)

/-- Mutable state of a `Map.js` instance relevant to the filter chain:
`data` (the original dataset), `filteredData` (the region-filtered subset),
the two radii, the dataset captured by `pointScale` at its creation
(represented by the maximum cluster count the sqrt scale was built from),
and the dataset most recently passed to `#renderGroupedPoints` (the
clusterer/renderer input). Both dataset fields are `Option` because they
are `undefined` before `renderGroupedPoints` runs. -/
structure MapState where
  data : Option (List MPoint)
  filteredData : Option (List MPoint)
  maxRadius : ℚ
  groupRadius : ℚ
  scaleMax : Option ℕ
  rendered : List MPoint
deriving Repr, DecidableEq

/-- The method `Map.js#updatePoints`: re-renders the supplied dataset via
`#renderGroupedPoints` without touching `data`, `filteredData` or
`pointScale`. -/
def updatePoints (s : MapState) (newData : List MPoint) : MapState :=
  { s with rendered := newData }

/-- Combined page state of `map-data.js`: the map instance, the slider's
`currentValue`, and the data most recently rendered into the line chart. -/
structure GlobalState where
  map : MapState
  sliderValue : ℤ
  lineRendered : Option (List (ℤ × ℕ) × List (ℤ × ℕ))
deriving Repr, DecidableEq

/-- Body of `filterOnDate` in `map-data.js` (the content of its `try`
block): filter `map.filteredData` by the date predicate, render the result
on the map, and render `filterLineChartData(map.filteredData)` into the
line chart. Accessing `.filter` of an undefined `filteredData` throws. -/
def filterOnDateBody (g : GlobalState) (date : ℤ) : Except String GlobalState :=
  match g.map.filteredData with
  | none => .error "TypeError: map.filteredData is undefined"
  | some fd =>
      .ok { g with
        map := updatePoints g.map (fd.filter (datePred date)),
        lineRendered := some (filterLineChartData fd) }

/-- The function `filterOnDate` with its `try`/`catch`: on a throw the
exception is logged and swallowed, leaving the state unchanged. -/
def filterOnDateRun (g : GlobalState) (date : ℤ) : GlobalState :=
  match filterOnDateBody g date with
  | .ok g1 => g1
  | .error _ => g

/-- Body of `filterOnRegion` in `map-data.js` (the content of its `try`
block): filter `this.data` by membership of the row's region in the
selected set, store the result in `this.filteredData`, then invoke
`mapRegionsFilterOnDate(slider.currentValue)` (which carries its own
`try`/`catch` and therefore never throws back). Accessing `.filter` of an
undefined `data` throws. -/
def filterOnRegionBody (g : GlobalState) (selectedRegions : Finset String) :
    Except String GlobalState :=
  match g.map.data with
  | none => .error "TypeError: map.data is undefined"
  | some dd =>
      let newData := dd.filter (fun d => decide (d.region ∈ selectedRegions))
      let g1 : GlobalState := { g with map := { g.map with filteredData := some newData } }
      .ok (filterOnDateRun g1 g.sliderValue)

/-- The function `filterOnRegion` with its `try`/`catch`. -/
def filterOnRegionRun (g : GlobalState) (selectedRegions : Finset String) : GlobalState :=
  match filterOnRegionBody g selectedRegions with
  | .ok g1 => g1
  | .error _ => g

/-- The method `Map.js#toggleRegion` restricted to one region: it reads the
region's `data-highlighted` attribute, flips it, and then deletes the
region's name from `selectedRegions` when it was highlighted, or adds it
when it was not. -/
def toggleRegion (highlighted : Bool) (selectedRegions : Finset String)
    (name : String) : Bool × Finset String :=
  if highlighted then (false, selectedRegions.erase name)
  else (true, insert name selectedRegions)

/-- Concrete point with a pre-1900 slider value in mind: opened 1990-1995,
never closed. -/
def pC : MPoint := ⟨55, -3, "Scotland", 1990, 1995, none⟩

/-- Concrete page state whose cached region-filtered subset `[pC]` differs
from its date-filtered subset at slider value 1900. -/
def gC : GlobalState :=
  { map := { data := some [], filteredData := some [pC], maxRadius := 15,
             groupRadius := 40, scaleMax := none, rendered := [] },
    sliderValue := 1900, lineRendered := none }

/-- Point whose opened-year range is inverted: `year_opened_low = 2001`
exceeds `year_opened_high = 2000`; never closed. -/
def pD : MPoint := ⟨0, 0, "England", 2001, 2000, none⟩

/-- Point with `year_opened_low = 1945`, `year_opened_high = 2017` and a
closed year of 1990 (not 2017). -/
def pE : MPoint := ⟨0, 0, "England", 1945, 2017, some 1990⟩

/-- Point with `year_opened_low = 1945`, `year_opened_high = 1950` and a
closed year of exactly 2017. -/
def pF : MPoint := ⟨0, 0, "England", 1945, 1950, some 2017⟩

/-- Page state before `renderGroupedPoints` has run: both dataset fields
are undefined, so both filter bodies throw. -/
def gErr : GlobalState :=
  { map := { data := none, filteredData := none, maxRadius := 15,
             groupRadius := 40, scaleMax := none, rendered := [] },
    sliderValue := 0, lineRendered := none }

/-- JS `Math.atan2(y, x)`, written piecewise; only the `x > 0` branch is
exercised by the evaluations below. -/
noncomputable def atan2 (y x : ℝ) : ℝ :=
  if 0 < x then Real.arctan (y / x)
  else if x < 0 ∧ 0 ≤ y then Real.arctan (y / x) + Real.pi
  else if x < 0 ∧ y < 0 then Real.arctan (y / x) - Real.pi
  else if x = 0 ∧ 0 < y then Real.pi / 2
  else if x = 0 ∧ y < 0 then -(Real.pi / 2)
  else 0

/-- The `haversineDistance` closure of `Map.js#groupCoordinates`: Earth
radius 6371 km, degree-to-radian conversions, and
`c = 2 * atan2(sqrt(a), sqrt(1 - a))`. -/
noncomputable def haversineDistance (coords1 coords2 : ℚ × ℚ) : ℝ :=
  let lat1 : ℝ := (coords1.1 : ℝ)
  let lon1 : ℝ := (coords1.2 : ℝ)
  let lat2 : ℝ := (coords2.1 : ℝ)
  let lon2 : ℝ := (coords2.2 : ℝ)
  let R : ℝ := 6371
  let dLat : ℝ := (lat2 - lat1) * (Real.pi / 180)
  let dLon : ℝ := (lon2 - lon1) * (Real.pi / 180)
  let a : ℝ :=
    Real.sin (dLat / 2) * Real.sin (dLat / 2) +
      Real.cos (lat1 * (Real.pi / 180)) * Real.cos (lat2 * (Real.pi / 180)) *
        Real.sin (dLon / 2) * Real.sin (dLon / 2)
  let c : ℝ := 2 * atan2 (Real.sqrt a) (Real.sqrt (1 - a))
  R * c

/-- Spec-side definition for comparison with the clusterer's running mean:
the coordinate-wise arithmetic mean of a list of points, as in the spec's
"centroid equal to the coordinate-wise mean". -/
def specArithmeticMean (l : List MPoint) : ℚ × ℚ :=
  ((l.map MPoint.lat).sum / (l.length : ℚ), (l.map MPoint.lon).sum / (l.length : ℚ))

/-- Point at latitude 0, longitude 179. -/
def pA : MPoint := ⟨0, 179, "England", 1900, 1905, none⟩

/-- Point at latitude 0, longitude -179, about 222 km from `pA` across the
antimeridian. -/
def pB : MPoint := ⟨0, -179, "England", 1900, 1905, none⟩

/-- Maximum cluster count, `d3.max(groups, d => d[1])` as used by
`Map.js#createSqrtScale`; `none` models `undefined` on an empty list. -/
def maxGroupCount (groups : List Group) : Option ℕ :=
  (groups.map (fun g => g.2)).max?

/-- Modelled from the spec: `d3.scaleSqrt([0, max], [0, maxRadius])` is
external charting-library code; per the spec's contract it maps a count `c`
to `maxRadius * sqrt c / sqrt max`, a square-root scale with domain
`[0, max]` and range `[0, maxRadius]`. -/
noncomputable def createSqrtScale (maxCount : ℕ) (maxRadius : ℚ) (c : ℕ) : ℝ :=
  (maxRadius : ℝ) * Real.sqrt (c : ℝ) / Real.sqrt (maxCount : ℝ)

/-- The method `Map.js#renderGroupedPoints`: stores the dataset in both
`data` and `filteredData`, stores the radii, creates `pointScale` from the
grouped dataset (captured here by the maximum group count it was built
from), and renders the dataset. -/
noncomputable def renderGroupedPoints (_s : MapState) (dataset : List MPoint)
    (maxRadius groupRadius : ℚ) : MapState :=
  { data := some dataset, filteredData := some dataset, maxRadius := maxRadius,
    groupRadius := groupRadius,
    scaleMax := maxGroupCount
      (groupCoordinates haversineDistance ((groupRadius : ℝ)) dataset),
    rendered := dataset }

/-- Map state as left by the `Map.js` constructor: no dataset loaded yet. -/
def mapInit : MapState :=
  { data := none, filteredData := none, maxRadius := 15, groupRadius := 40,
    scaleMax := none, rendered := [] }

/-- The trailing `map` in `groupCoordinates` rebuilds each pair unchanged. -/
theorem groupCoordinates_eq_foldl {α : Type} [LinearOrder α]
    (dist : ℚ × ℚ → ℚ × ℚ → α) (t : α) (coordinates : List MPoint) :
    groupCoordinates dist t coordinates =
      coordinates.foldl
        (fun groups p => mergeIntoClosestGroup dist t (p.lat, p.lon) groups) [] := by
  simp [groupCoordinates]

/-- Full characterisation of the scan loop relative to an arbitrary
accumulator: either no group improves on the carried distance and the
accumulator is returned unchanged, or the result records the absolute index
of the first group achieving the minimum distance, that distance being
strictly below the carried one, minimal among all groups, and strictly
below every earlier group's distance. -/
theorem scanClosestAux_spec {α : Type} [LinearOrder α] (dmap : Group → α) :
    ∀ (gs : List Group) (i0 : ℕ) (acc : Option ℕ × α),
      (scanClosestAux dmap gs i0 acc = acc ∧ ∀ g ∈ gs, acc.2 ≤ dmap g) ∨
      (∃ k, ∃ hk : k < gs.length,
        (scanClosestAux dmap gs i0 acc).1 = some (i0 + k) ∧
        (scanClosestAux dmap gs i0 acc).2 = dmap (gs.get ⟨k, hk⟩) ∧
        (scanClosestAux dmap gs i0 acc).2 < acc.2 ∧
        (∀ g ∈ gs, (scanClosestAux dmap gs i0 acc).2 ≤ dmap g) ∧
        (∀ j (hj : j < k),
          (scanClosestAux dmap gs i0 acc).2 < dmap (gs.get ⟨j, hj.trans hk⟩)))
  | [], i0, acc => by
      left
      exact ⟨rfl, by simp⟩
  | g :: gs, i0, acc => by
      by_cases h : dmap g < acc.2
      · have hstep : scanClosestAux dmap (g :: gs) i0 acc =
            scanClosestAux dmap gs (i0 + 1) (some i0, dmap g) := by
          simp [scanClosestAux, if_pos h]
        rcases scanClosestAux_spec dmap gs (i0 + 1) (some i0, dmap g) with
          ⟨heq, hall⟩ | ⟨k, hk, h1, h2, h3, h4, h5⟩
        · right
          refine ⟨0, by simp, ?_, ?_, ?_, ?_, ?_⟩
          · rw [hstep, heq]
            simp
          · rw [hstep, heq]
            simp
          · rw [hstep, heq]; exact h
          · intro g' hg'
            rw [hstep, heq]
            rcases List.mem_cons.mp hg' with rfl | hg'
            · exact le_refl _
            · exact hall g' hg'
          · intro j hj; omega
        · right
          refine ⟨k + 1, by simpa using Nat.succ_lt_succ hk, ?_, ?_, ?_, ?_, ?_⟩
          · rw [hstep, h1]
            congr 1
            omega
          · rw [hstep, h2]
            rfl
          · rw [hstep]
            exact lt_trans h3 h
          · intro g' hg'
            rw [hstep]
            rcases List.mem_cons.mp hg' with rfl | hg'
            · exact le_of_lt h3
            · exact h4 g' hg'
          · intro j hj
            rw [hstep]
            match j, hj with
            | 0, _ => exact h3
            | j' + 1, hj =>
                have hj' : j' < k := Nat.lt_of_succ_lt_succ hj
                exact h5 j' hj'
      · have hle : acc.2 ≤ dmap g := not_lt.mp h
        have hstep : scanClosestAux dmap (g :: gs) i0 acc =
            scanClosestAux dmap gs (i0 + 1) acc := by
          simp [scanClosestAux, if_neg h]
        rcases scanClosestAux_spec dmap gs (i0 + 1) acc with
          ⟨heq, hall⟩ | ⟨k, hk, h1, h2, h3, h4, h5⟩
        · left
          refine ⟨by rw [hstep, heq], ?_⟩
          intro g' hg'
          rcases List.mem_cons.mp hg' with rfl | hg'
          · exact hle
          · exact hall g' hg'
        · right
          refine ⟨k + 1, by simpa using Nat.succ_lt_succ hk, ?_, ?_, ?_, ?_, ?_⟩
          · rw [hstep, h1]
            congr 1
            omega
          · rw [hstep, h2]
            rfl
          · rw [hstep]; exact h3
          · intro g' hg'
            rw [hstep]
            rcases List.mem_cons.mp hg' with rfl | hg'
            · exact le_of_lt (lt_of_lt_of_le h3 hle)
            · exact h4 g' hg'
          · intro j hj
            rw [hstep]
            match j, hj with
            | 0, _ => exact lt_of_lt_of_le h3 hle
            | j' + 1, hj =>
                have hj' : j' < k := Nat.lt_of_succ_lt_succ hj
                exact h5 j' hj'

/-- If no existing group's centroid is strictly within the threshold, the
scan leaves the accumulator at `(null, maxDistance)` and a new singleton
group is appended. -/
theorem mergeIntoClosestGroup_of_far {α : Type} [LinearOrder α]
    (dist : ℚ × ℚ → ℚ × ℚ → α) (t : α) (point : ℚ × ℚ) (groups : List Group)
    (h : ∀ g ∈ groups, ¬ dist point g.1 < t) :
    mergeIntoClosestGroup dist t point groups = groups ++ [((point.1, point.2), 1)] := by
  rcases scanClosestAux_spec (fun g => dist point g.1) groups 0 (none, t) with
    ⟨heq, -⟩ | ⟨k, hk, -, h2, h3, -, -⟩
  · unfold mergeIntoClosestGroup
    rw [heq]
  · exact absurd (h2 ▸ h3) (h (groups.get ⟨k, hk⟩) (groups.get_mem _ _))

/-- If some group's centroid is strictly within the threshold, the point is
merged into the first group attaining the minimal centroid distance: that
distance is strictly below the threshold, minimal among all groups, and
strictly below the distance of every earlier group. -/
theorem mergeIntoClosestGroup_of_near {α : Type} [LinearOrder α]
    (dist : ℚ × ℚ → ℚ × ℚ → α) (t : α) (point : ℚ × ℚ) (groups : List Group)
    (h : ∃ g ∈ groups, dist point g.1 < t) :
    ∃ k, ∃ hk : k < groups.length,
      dist point (groups.get ⟨k, hk⟩).1 < t ∧
      (∀ j (hj : j < groups.length),
        dist point (groups.get ⟨k, hk⟩).1 ≤ dist point (groups.get ⟨j, hj⟩).1) ∧
      (∀ j (hj : j < k),
        dist point (groups.get ⟨k, hk⟩).1 < dist point (groups.get ⟨j, hj.trans hk⟩).1) ∧
      mergeIntoClosestGroup dist t point groups = List.modify (updateGroup point) k groups := by
  rcases scanClosestAux_spec (fun g => dist point g.1) groups 0 (none, t) with
    ⟨-, hall⟩ | ⟨k, hk, h1, h2, h3, h4, h5⟩
  · obtain ⟨g, hg, hlt⟩ := h
    exact absurd hlt (not_lt.mpr (hall g hg))
  · refine ⟨k, hk, ?_, ?_, ?_, ?_⟩
    · exact h2 ▸ h3
    · intro j hj
      exact h2 ▸ h4 (groups.get ⟨j, hj⟩) (groups.get_mem _ _)
    · intro j hj
      exact h2 ▸ h5 j hj
    · unfold mergeIntoClosestGroup
      rw [h1]
      simp

/-- List surgery helper: modifying index `i` of a list, recursively. -/
theorem totalNumberOfPoints_modify (point : ℚ × ℚ) :
    ∀ (groups : List Group) (i : ℕ), i < groups.length →
      totalNumberOfPoints (List.modify (updateGroup point) i groups) =
        totalNumberOfPoints groups + 1
  | [], i, h => absurd h (by simp)
  | g :: gs, 0, _ => by
      simp [totalNumberOfPoints, updateGroup]
      omega
  | g :: gs, i + 1, h => by
      have ih := totalNumberOfPoints_modify point gs i (by simpa using Nat.lt_of_succ_lt_succ h)
      simp only [List.modify_succ_cons, totalNumberOfPoints, List.map_cons, List.sum_cons] at ih ⊢
      omega

/-- Every merge step adds exactly one to the total of the counts. -/
theorem totalNumberOfPoints_merge {α : Type} [LinearOrder α]
    (dist : ℚ × ℚ → ℚ × ℚ → α) (t : α) (point : ℚ × ℚ) (groups : List Group) :
    totalNumberOfPoints (mergeIntoClosestGroup dist t point groups) =
      totalNumberOfPoints groups + 1 := by
  by_cases h : ∃ g ∈ groups, dist point g.1 < t
  · obtain ⟨k, hk, -, -, -, heq⟩ := mergeIntoClosestGroup_of_near dist t point groups h
    rw [heq, totalNumberOfPoints_modify point groups k hk]
  · push_neg at h
    rw [mergeIntoClosestGroup_of_far dist t point groups (fun g hg => not_lt.mpr (h g hg))]
    simp [totalNumberOfPoints]

/-- Folding one more point processes it after all earlier ones. -/
theorem groupCoordinates_append {α : Type} [LinearOrder α]
    (dist : ℚ × ℚ → ℚ × ℚ → α) (t : α) (ps : List MPoint) (q : MPoint) :
    groupCoordinates dist t (ps ++ [q]) =
      mergeIntoClosestGroup dist t (q.lat, q.lon) (groupCoordinates dist t ps) := by
  rw [groupCoordinates_eq_foldl, groupCoordinates_eq_foldl, List.foldl_append]
  rfl

/-- Accumulated total over a fold of merge steps. -/
theorem totalNumberOfPoints_foldl {α : Type} [LinearOrder α]
    (dist : ℚ × ℚ → ℚ × ℚ → α) (t : α) :
    ∀ (ps : List MPoint) (groups : List Group),
      totalNumberOfPoints
          (ps.foldl (fun gs p => mergeIntoClosestGroup dist t (p.lat, p.lon) gs) groups) =
        totalNumberOfPoints groups + ps.length
  | [], groups => by simp
  | p :: ps, groups => by
      rw [List.foldl_cons, totalNumberOfPoints_foldl dist t ps,
        totalNumberOfPoints_merge dist t (p.lat, p.lon) groups]
      simp
      omega

/-- C1: the clusterer processes points in input order; for each point it
scans all existing clusters and merges it into the cluster whose centroid
attains the smallest distance strictly below the threshold; if no centroid
is strictly within the threshold it appends a new singleton cluster; on a
merge the chosen cluster's centroid becomes the count-weighted running mean
of the old centroid and the point, and its count grows by one. -/
theorem clusterer_greedy_merge {α : Type} [LinearOrder α]
    (dist : ℚ × ℚ → ℚ × ℚ → α) (t : α) (ps : List MPoint) (q : MPoint)
    (point : ℚ × ℚ) (groups : List Group) :
    (groupCoordinates dist t (ps ++ [q]) =
        mergeIntoClosestGroup dist t (q.lat, q.lon) (groupCoordinates dist t ps)) ∧
    ((∃ g ∈ groups, dist point g.1 < t) →
      ∃ k, ∃ hk : k < groups.length,
        dist point (groups.get ⟨k, hk⟩).1 < t ∧
        (∀ j (hj : j < groups.length),
          dist point (groups.get ⟨k, hk⟩).1 ≤ dist point (groups.get ⟨j, hj⟩).1) ∧
        mergeIntoClosestGroup dist t point groups =
          List.modify (updateGroup point) k groups) ∧
    ((∀ g ∈ groups, ¬ dist point g.1 < t) →
      mergeIntoClosestGroup dist t point groups = groups ++ [((point.1, point.2), 1)]) ∧
    (∀ (c : ℚ × ℚ) (n : ℕ),
      updateGroup point (c, n) =
        (((c.1 * (n : ℚ) + point.1) / ((n : ℚ) + 1),
          (c.2 * (n : ℚ) + point.2) / ((n : ℚ) + 1)), n + 1)) := by
  refine ⟨groupCoordinates_append dist t ps q, ?_, ?_, fun c n => rfl⟩
  · intro h
    obtain ⟨k, hk, h1, h2, -, h4⟩ := mergeIntoClosestGroup_of_near dist t point groups h
    exact ⟨k, hk, h1, h2, h4⟩
  · exact mergeIntoClosestGroup_of_far dist t point groups

/-- Witness for `clusterer_greedy_merge`: with the discrete distance on
ℚ² (0 when equal, else 1) and threshold 5, the point (1,0) merges into the
cluster centred at (1,0) (the unique minimiser), while with threshold 1 the
point (100,0) is not strictly within the threshold of any centroid and
starts a new singleton cluster. -/
theorem clusterer_greedy_merge_witness :
    (∃ k, ∃ hk : k <
        ([((((10 : ℚ)), (0 : ℚ)), 2), (((1 : ℚ), (0 : ℚ)), 1)] : List Group).length,
      (fun c1 c2 : ℚ × ℚ => if c1 = c2 then (0 : ℚ) else 1) ((1 : ℚ), (0 : ℚ))
          (([((((10 : ℚ)), (0 : ℚ)), 2), (((1 : ℚ), (0 : ℚ)), 1)] : List Group).get ⟨k, hk⟩).1 <
        (5 : ℚ) ∧
      (∀ j (hj : j <
          ([((((10 : ℚ)), (0 : ℚ)), 2), (((1 : ℚ), (0 : ℚ)), 1)] : List Group).length),
        (fun c1 c2 : ℚ × ℚ => if c1 = c2 then (0 : ℚ) else 1) ((1 : ℚ), (0 : ℚ))
            (([((((10 : ℚ)), (0 : ℚ)), 2), (((1 : ℚ), (0 : ℚ)), 1)] : List Group).get ⟨k, hk⟩).1 ≤
          (fun c1 c2 : ℚ × ℚ => if c1 = c2 then (0 : ℚ) else 1) ((1 : ℚ), (0 : ℚ))
            (([((((10 : ℚ)), (0 : ℚ)), 2), (((1 : ℚ), (0 : ℚ)), 1)] : List Group).get ⟨j, hj⟩).1) ∧
      mergeIntoClosestGroup (fun c1 c2 : ℚ × ℚ => if c1 = c2 then (0 : ℚ) else 1) (5 : ℚ)
          ((1 : ℚ), (0 : ℚ)) [((((10 : ℚ)), (0 : ℚ)), 2), (((1 : ℚ), (0 : ℚ)), 1)] =
        List.modify (updateGroup ((1 : ℚ), (0 : ℚ))) k
          [((((10 : ℚ)), (0 : ℚ)), 2), (((1 : ℚ), (0 : ℚ)), 1)]) ∧
    mergeIntoClosestGroup (fun c1 c2 : ℚ × ℚ => if c1 = c2 then (0 : ℚ) else 1) (1 : ℚ)
        ((100 : ℚ), (0 : ℚ)) [(((0 : ℚ), (0 : ℚ)), 1)] =
      [(((0 : ℚ), (0 : ℚ)), 1), (((100 : ℚ), (0 : ℚ)), 1)] :=
  ⟨(clusterer_greedy_merge (fun c1 c2 : ℚ × ℚ => if c1 = c2 then (0 : ℚ) else 1) (5 : ℚ)
      [] ⟨0, 0, "", 0, 0, none⟩ ((1 : ℚ), (0 : ℚ))
      [((((10 : ℚ)), (0 : ℚ)), 2), (((1 : ℚ), (0 : ℚ)), 1)]).2.1 (by decide),
   (clusterer_greedy_merge (fun c1 c2 : ℚ × ℚ => if c1 = c2 then (0 : ℚ) else 1) (1 : ℚ)
      [] ⟨0, 0, "", 0, 0, none⟩ ((100 : ℚ), (0 : ℚ))
      [(((0 : ℚ), (0 : ℚ)), 1)]).2.2.1 (by decide)⟩

/-- C2: for every distance function and threshold, the sum of the counts of
the output clusters equals the number of input points; the empty input
yields no clusters, and a single point yields one cluster of count 1
centred at that point. -/
theorem clusterer_count_invariant {α : Type} [LinearOrder α]
    (dist : ℚ × ℚ → ℚ × ℚ → α) (t : α) (ps : List MPoint) (p : MPoint) :
    totalNumberOfPoints (groupCoordinates dist t ps) = ps.length ∧
    groupCoordinates dist t ([] : List MPoint) = [] ∧
    groupCoordinates dist t [p] = [((p.lat, p.lon), 1)] := by
  refine ⟨?_, rfl, rfl⟩
  rw [groupCoordinates_eq_foldl, totalNumberOfPoints_foldl dist t ps []]
  simp [totalNumberOfPoints]

/-- C10: a point whose distance to every existing centroid fails the strict
threshold comparison always starts a new cluster, and when several clusters
attain the minimal distance strictly below the threshold the point merges
into the earliest-created one: the chosen index is strictly better than
every earlier index, so a later cluster at equal distance never replaces
the current candidate. -/
theorem clusterer_tiebreak {α : Type} [LinearOrder α]
    (dist : ℚ × ℚ → ℚ × ℚ → α) (t : α) (point : ℚ × ℚ) (groups : List Group) :
    ((∀ g ∈ groups, ¬ dist point g.1 < t) →
      mergeIntoClosestGroup dist t point groups = groups ++ [((point.1, point.2), 1)]) ∧
    ((∃ g ∈ groups, dist point g.1 < t) →
      ∃ k, ∃ hk : k < groups.length,
        mergeIntoClosestGroup dist t point groups = List.modify (updateGroup point) k groups ∧
        dist point (groups.get ⟨k, hk⟩).1 < t ∧
        (∀ j (hj : j < k),
          dist point (groups.get ⟨k, hk⟩).1 < dist point (groups.get ⟨j, hj.trans hk⟩).1)) := by
  refine ⟨mergeIntoClosestGroup_of_far dist t point groups, ?_⟩
  intro h
  obtain ⟨k, hk, h1, -, h3, h4⟩ := mergeIntoClosestGroup_of_near dist t point groups h
  exact ⟨k, hk, h4, h1, h3⟩

/-- Witness for `clusterer_tiebreak`: with the discrete distance and
threshold 1 the point (100,0) starts a new cluster; with threshold 5 the
point (1,0) is at distance 1 from both of two equal-distance centroids and
merges into the earlier one. -/
theorem clusterer_tiebreak_witness :
    (mergeIntoClosestGroup (fun c1 c2 : ℚ × ℚ => if c1 = c2 then (0 : ℚ) else 1) (1 : ℚ)
        ((100 : ℚ), (0 : ℚ)) [(((0 : ℚ), (0 : ℚ)), 1), (((2 : ℚ), (0 : ℚ)), 1)] =
      [(((0 : ℚ), (0 : ℚ)), 1), (((2 : ℚ), (0 : ℚ)), 1), (((100 : ℚ), (0 : ℚ)), 1)]) ∧
    (∃ k, ∃ hk : k <
        ([(((0 : ℚ), (0 : ℚ)), 1), (((2 : ℚ), (0 : ℚ)), 1)] : List Group).length,
      mergeIntoClosestGroup (fun c1 c2 : ℚ × ℚ => if c1 = c2 then (0 : ℚ) else 1) (5 : ℚ)
          ((1 : ℚ), (0 : ℚ)) [(((0 : ℚ), (0 : ℚ)), 1), (((2 : ℚ), (0 : ℚ)), 1)] =
        List.modify (updateGroup ((1 : ℚ), (0 : ℚ))) k
          [(((0 : ℚ), (0 : ℚ)), 1), (((2 : ℚ), (0 : ℚ)), 1)] ∧
      (fun c1 c2 : ℚ × ℚ => if c1 = c2 then (0 : ℚ) else 1) ((1 : ℚ), (0 : ℚ))
          (([(((0 : ℚ), (0 : ℚ)), 1), (((2 : ℚ), (0 : ℚ)), 1)] : List Group).get ⟨k, hk⟩).1 <
        (5 : ℚ) ∧
      (∀ j (hj : j < k),
        (fun c1 c2 : ℚ × ℚ => if c1 = c2 then (0 : ℚ) else 1) ((1 : ℚ), (0 : ℚ))
            (([(((0 : ℚ), (0 : ℚ)), 1), (((2 : ℚ), (0 : ℚ)), 1)] : List Group).get ⟨k, hk⟩).1 <
          (fun c1 c2 : ℚ × ℚ => if c1 = c2 then (0 : ℚ) else 1) ((1 : ℚ), (0 : ℚ))
            (([(((0 : ℚ), (0 : ℚ)), 1), (((2 : ℚ), (0 : ℚ)), 1)] : List Group).get
              ⟨j, hj.trans hk⟩).1)) :=
  ⟨(clusterer_tiebreak (fun c1 c2 : ℚ × ℚ => if c1 = c2 then (0 : ℚ) else 1) (1 : ℚ)
      ((100 : ℚ), (0 : ℚ)) [(((0 : ℚ), (0 : ℚ)), 1), (((2 : ℚ), (0 : ℚ)), 1)]).1 (by decide),
   (clusterer_tiebreak (fun c1 c2 : ℚ × ℚ => if c1 = c2 then (0 : ℚ) else 1) (5 : ℚ)
      ((1 : ℚ), (0 : ℚ)) [(((0 : ℚ), (0 : ℚ)), 1), (((2 : ℚ), (0 : ℚ)), 1)]).2 (by decide)⟩

/-- C3 (amended): a region toggle recomputes the region-filtered subset
from the full dataset and then re-applies the date filter at the slider's
current value to the new subset, while a slider date change applies the
date filter to the cached region-filtered subset; in both cases the
date-filtered result is handed to the clusterer/renderer, while the
time-series aggregation receives the cached region-filtered subset (after
outlier removal), not the date-filtered result. -/
theorem filter_chain_propagation (g : GlobalState) (sel : Finset String) (date : ℤ)
    (dd fd : List MPoint) :
    (g.map.data = some dd →
      filterOnRegionRun g sel =
        { g with
            map := { g.map with
              filteredData := some (dd.filter (fun d => decide (d.region ∈ sel))),
              rendered := (dd.filter (fun d => decide (d.region ∈ sel))).filter
                (datePred g.sliderValue) },
            lineRendered := some (filterLineChartData
              (dd.filter (fun d => decide (d.region ∈ sel)))) }) ∧
    (g.map.filteredData = some fd →
      filterOnDateRun g date =
        { g with
            map := { g.map with rendered := fd.filter (datePred date) },
            lineRendered := some (filterLineChartData fd) }) := by
  constructor
  · intro h
    simp only [filterOnRegionRun, filterOnRegionBody, h, filterOnDateRun,
      filterOnDateBody, updatePoints]
  · intro h
    simp only [filterOnDateRun, filterOnDateBody, h, updatePoints]

/-- Witness for `filter_chain_propagation` at the concrete state `gC`. -/
theorem filter_chain_propagation_witness :
    (filterOnRegionRun gC {"Scotland"} =
      { gC with
          map := { gC.map with
            filteredData := some (([] : List MPoint).filter
              (fun d => decide (d.region ∈ ({"Scotland"} : Finset String)))),
            rendered := (([] : List MPoint).filter
              (fun d => decide (d.region ∈ ({"Scotland"} : Finset String)))).filter
              (datePred gC.sliderValue) },
          lineRendered := some (filterLineChartData (([] : List MPoint).filter
            (fun d => decide (d.region ∈ ({"Scotland"} : Finset String))))) }) ∧
    (filterOnDateRun gC 1996 =
      { gC with
          map := { gC.map with rendered := [pC].filter (datePred 1996) },
          lineRendered := some (filterLineChartData [pC]) }) :=
  ⟨(filter_chain_propagation gC {"Scotland"} 1996 [] [pC]).1 (by decide),
   (filter_chain_propagation gC {"Scotland"} 1996 [] [pC]).2 (by decide)⟩

/-- Counterexample for C3 as stated: at state `gC` with slider value 1900
the date filter removes `pC` (opened 1990), so the clusterer/renderer
receives the empty list, yet the time-series aggregation is rendered from
the cached region-filtered subset `[pC]` and its output differs from the
aggregation of the date-filtered result. -/
theorem filter_chain_counterexample :
    (filterOnDateRun gC 1900).map.rendered = [] ∧
    (filterOnDateRun gC 1900).lineRendered = some (filterLineChartData [pC]) ∧
    filterLineChartData [pC] ≠
      filterLineChartData ((filterOnDateRun gC 1900).map.rendered) := by
  refine ⟨by decide, by decide, by decide⟩

/-- C4 (amended): the date filter includes a point exactly when its
`year_opened_low` is at most the reference date and its `year_closed_low`
is either absent (`NaN`, treated as still open) or strictly greater than
the reference date; consequently a point with `yearOpenedHigh = 2000`,
`yearOpenedLow ≤ yearOpenedHigh` and `yearClosedLow = NaN` is included for
every reference date at least 2000. -/
theorem date_filter_semantics (d : MPoint) (date : ℤ) (l : List MPoint) :
    (datePred date d = true ↔
      (d.yearOpenedLow ≤ date ∧
        (d.yearClosedLow = none ∨ ∃ c, d.yearClosedLow = some c ∧ date < c))) ∧
    (d ∈ l → (d ∈ l.filter (datePred date) ↔
      (d.yearOpenedLow ≤ date ∧
        (d.yearClosedLow = none ∨ ∃ c, d.yearClosedLow = some c ∧ date < c)))) ∧
    (d.yearOpenedLow ≤ d.yearOpenedHigh → d.yearOpenedHigh = 2000 →
      d.yearClosedLow = none → ∀ D : ℤ, 2000 ≤ D → datePred D d = true) := by
  have hiff : datePred date d = true ↔
      (d.yearOpenedLow ≤ date ∧
        (d.yearClosedLow = none ∨ ∃ c, d.yearClosedLow = some c ∧ date < c)) := by
    cases hc : d.yearClosedLow with
    | none => simp [datePred, hc]
    | some c => simp [datePred, hc]
  refine ⟨hiff, ?_, ?_⟩
  · intro hmem
    rw [List.mem_filter]
    constructor
    · rintro ⟨-, hp⟩
      exact hiff.mp hp
    · intro hp
      exact ⟨hmem, hiff.mpr hp⟩
  · intro hle hhigh hclosed D hD
    simp only [datePred, hclosed, Bool.and_true, decide_eq_true_eq]
    omega

/-- Witness for `date_filter_semantics`: a point opened 1990-2000 and never
closed is included at reference date 2005. -/
theorem date_filter_semantics_witness :
    (datePred 2005 ⟨0, 0, "England", 1990, 2000, none⟩ = true ↔
      ((⟨0, 0, "England", 1990, 2000, none⟩ : MPoint).yearOpenedLow ≤ 2005 ∧
        ((⟨0, 0, "England", 1990, 2000, none⟩ : MPoint).yearClosedLow = none ∨
          ∃ c, (⟨0, 0, "England", 1990, 2000, none⟩ : MPoint).yearClosedLow = some c ∧
            (2005 : ℤ) < c))) ∧
    datePred 2005 ⟨0, 0, "England", 1990, 2000, none⟩ = true :=
  ⟨(date_filter_semantics ⟨0, 0, "England", 1990, 2000, none⟩ 2005 []).1,
   (date_filter_semantics ⟨0, 0, "England", 1990, 2000, none⟩ 2005 []).2.2
     (by decide) (by decide) (by decide) 2005 (by decide)⟩

/-- Counterexample for C4 as stated: `pD` has `yearOpenedHigh = 2000` and
`yearClosedLow = NaN`, yet at reference date 2000 the code excludes it,
because the filter compares `year_opened_low` (here 2001), not
`year_opened_high`, against the reference date. -/
theorem date_filter_counterexample :
    pD.yearOpenedHigh = 2000 ∧ pD.yearClosedLow = none ∧ (2000 : ℤ) ≤ 2000 ∧
    datePred 2000 pD = false ∧ [pD].filter (datePred 2000) = [] := by
  refine ⟨by decide, by decide, by decide, by decide, by decide⟩

/-- C5 (amended): the outlier filter of the line-chart pipeline removes
exactly the points with `year_opened_low` equal to 1945 or 1960 and
`year_opened_high` (not the closed year) equal to 2017; it is applied only
on the way into the time-series aggregation, while the point set handed to
the map renderer is only date-filtered. -/
theorem artifact_filter_semantics (l : List MPoint) (d : MPoint) (g : GlobalState)
    (fd : List MPoint) (date : ℤ) :
    (d ∈ filterLineChartPoints l ↔
      d ∈ l ∧ ¬((d.yearOpenedLow = 1945 ∨ d.yearOpenedLow = 1960) ∧
        d.yearOpenedHigh = 2017)) ∧
    (filterLineChartData l = calculateRollup (filterLineChartPoints l)) ∧
    (g.map.filteredData = some fd →
      (filterOnDateRun g date).map.rendered = fd.filter (datePred date) ∧
      (filterOnDateRun g date).lineRendered =
        some (calculateRollup (filterLineChartPoints fd))) := by
  refine ⟨?_, rfl, ?_⟩
  · rw [filterLineChartPoints, List.mem_filter]
    have hpred : (!((d.yearOpenedLow == 1945 || d.yearOpenedLow == 1960) &&
        (d.yearOpenedHigh == 2017))) = true ↔
        ¬((d.yearOpenedLow = 1945 ∨ d.yearOpenedLow = 1960) ∧
          d.yearOpenedHigh = 2017) := by
      by_cases h1 : d.yearOpenedLow = 1945 <;>
        by_cases h2 : d.yearOpenedLow = 1960 <;>
          by_cases h3 : d.yearOpenedHigh = 2017 <;>
            simp [h1, h2, h3]
    rw [hpred]
  · intro h
    constructor
    · simp only [filterOnDateRun, filterOnDateBody, h, updatePoints]
    · simp only [filterOnDateRun, filterOnDateBody, h, updatePoints, filterLineChartData]

/-- Witness for `artifact_filter_semantics` at the state `gC`. -/
theorem artifact_filter_semantics_witness :
    (pC ∈ filterLineChartPoints [pC] ↔
      pC ∈ [pC] ∧ ¬((pC.yearOpenedLow = 1945 ∨ pC.yearOpenedLow = 1960) ∧
        pC.yearOpenedHigh = 2017)) ∧
    (filterOnDateRun gC 1996).map.rendered = [pC].filter (datePred 1996) ∧
    (filterOnDateRun gC 1996).lineRendered =
      some (calculateRollup (filterLineChartPoints [pC])) :=
  ⟨(artifact_filter_semantics [pC] pC gC [pC] 1996).1,
   ((artifact_filter_semantics [pC] pC gC [pC] 1996).2.2 (by decide)).1,
   ((artifact_filter_semantics [pC] pC gC [pC] 1996).2.2 (by decide)).2⟩

/-- Counterexample for C5 as stated: `pE` does not satisfy the claim's
removal predicate (its closed year is 1990, not 2017) yet the code removes
it, and `pF` satisfies the claim's removal predicate (opened 1945, closed
2017) yet the code keeps it — the source tests `year_opened_high == 2017`,
not the closed year. -/
theorem artifact_filter_counterexample :
    ¬((pE.yearOpenedLow = 1945 ∨ pE.yearOpenedLow = 1960) ∧
      pE.yearClosedLow = some 2017) ∧
    filterLineChartPoints [pE] = [] ∧
    ((pF.yearOpenedLow = 1945 ∨ pF.yearOpenedLow = 1960) ∧
      pF.yearClosedLow = some 2017) ∧
    filterLineChartPoints [pF] = [pF] := by
  refine ⟨by decide, by decide, by decide, by decide⟩

/-- C9: when the body of a region or date recompute throws, the exception
is caught and the handler returns the untouched previous state; moreover
the stored full dataset is never modified by either handler, and the date
handler never modifies the cached region-filtered subset, so the last good
filtered state is retained. -/
theorem filter_error_handling (g : GlobalState) (sel : Finset String) (date : ℤ)
    (e1 e2 : String) :
    (filterOnRegionBody g sel = .error e1 → filterOnRegionRun g sel = g) ∧
    (filterOnDateBody g date = .error e2 → filterOnDateRun g date = g) ∧
    (filterOnRegionRun g sel).map.data = g.map.data ∧
    (filterOnDateRun g date).map.data = g.map.data ∧
    (filterOnDateRun g date).map.filteredData = g.map.filteredData := by
  refine ⟨?_, ?_, ?_, ?_, ?_⟩
  · intro h
    simp [filterOnRegionRun, h]
  · intro h
    simp [filterOnDateRun, h]
  · cases hd : g.map.data with
    | none => simp [filterOnRegionRun, filterOnRegionBody, hd]
    | some dd =>
        simp [filterOnRegionRun, filterOnRegionBody, hd, filterOnDateRun,
          filterOnDateBody, updatePoints]
  · cases hf : g.map.filteredData with
    | none => simp [filterOnDateRun, filterOnDateBody, hf]
    | some fd => simp [filterOnDateRun, filterOnDateBody, hf, updatePoints]
  · cases hf : g.map.filteredData with
    | none => simp [filterOnDateRun, filterOnDateBody, hf]
    | some fd => simp [filterOnDateRun, filterOnDateBody, hf, updatePoints]

/-- Witness for `filter_error_handling`: at `gErr` both handler bodies
throw and both handlers return the state unchanged. -/
theorem filter_error_handling_witness :
    filterOnRegionRun gErr ∅ = gErr ∧ filterOnDateRun gErr 0 = gErr :=
  ⟨(filter_error_handling gErr ∅ 0 "TypeError: map.data is undefined"
      "TypeError: map.filteredData is undefined").1 rfl,
   (filter_error_handling gErr ∅ 0 "TypeError: map.data is undefined"
      "TypeError: map.filteredData is undefined").2.1 rfl⟩

/-- C8 (amended): when the region's `data-highlighted` attribute agrees
with its membership in the active set — the invariant established at
initialisation and preserved by every toggle — toggling twice restores
both the attribute and the active set; the single toggle also preserves
the agreement invariant. -/
theorem region_toggle_double (highlighted : Bool) (sel : Finset String) (name : String)
    (hsync : highlighted = true ↔ name ∈ sel) :
    toggleRegion (toggleRegion highlighted sel name).1
        (toggleRegion highlighted sel name).2 name = (highlighted, sel) ∧
    ((toggleRegion highlighted sel name).1 = true ↔
      name ∈ (toggleRegion highlighted sel name).2) := by
  cases highlighted with
  | true =>
      have hmem : name ∈ sel := hsync.mp rfl
      constructor
      · simp [toggleRegion, Finset.insert_erase hmem]
      · simp [toggleRegion]
  | false =>
      have hnot : name ∉ sel := fun hmem => by
        simpa using hsync.mpr hmem
      constructor
      · simp [toggleRegion, Finset.erase_insert hnot]
      · simp [toggleRegion]

/-- Witness for `region_toggle_double`: toggling Scotland twice starting
from the in-sync state where it is highlighted and active. -/
theorem region_toggle_double_witness :
    toggleRegion (toggleRegion true {"Scotland"} "Scotland").1
        (toggleRegion true {"Scotland"} "Scotland").2 "Scotland" =
      (true, ({"Scotland"} : Finset String)) ∧
    ((toggleRegion true {"Scotland"} "Scotland").1 = true ↔
      "Scotland" ∈ (toggleRegion true {"Scotland"} "Scotland").2) :=
  ⟨(region_toggle_double true {"Scotland"} "Scotland" (by decide)).1,
   (region_toggle_double true {"Scotland"} "Scotland" (by decide)).2⟩

/-- Counterexample for C8 as stated: in the out-of-sync state where the
region is visually highlighted but absent from the active set, toggling
Scotland twice yields an active set containing Scotland instead of the
original empty set, because the toggle is keyed on the `data-highlighted`
attribute rather than on set membership. -/
theorem region_toggle_counterexample :
    toggleRegion (toggleRegion true ∅ "Scotland").1
        (toggleRegion true ∅ "Scotland").2 "Scotland" ≠
      (true, (∅ : Finset String)) := by
  decide

/-- On the right half-plane `atan2` recovers the angle from its sine and
cosine. -/
theorem atan2_sin_cos (θ : ℝ) (h1 : -(Real.pi / 2) < θ) (h2 : θ < Real.pi / 2) :
    atan2 (Real.sin θ) (Real.cos θ) = θ := by
  have hcos : 0 < Real.cos θ := Real.cos_pos_of_mem_Ioo ⟨h1, h2⟩
  rw [atan2, if_pos hcos, ← Real.tan_eq_sin_div_cos, Real.arctan_tan h1 h2]

/-- Evaluation of the haversine distance between two points on the equator
whose longitude gap reduces (after squaring the sine) to an angle in the
first quadrant: the distance is `6371 * 2θ`. -/
theorem haversine_equator (a b : ℚ) (θ : ℝ) (h0 : 0 ≤ θ) (hhalf : θ < Real.pi / 2)
    (hsin : Real.sin (((b : ℝ) - (a : ℝ)) * (Real.pi / 180) / 2) ^ 2 =
      Real.sin θ ^ 2) :
    haversineDistance (0, a) (0, b) = 6371 * (2 * θ) := by
  have hpi := Real.pi_pos
  have hθπ : θ ≤ Real.pi := le_of_lt (lt_trans hhalf (by linarith))
  have hsinθ : 0 ≤ Real.sin θ := Real.sin_nonneg_of_nonneg_of_le_pi h0 hθπ
  have hcosθ : 0 ≤ Real.cos θ :=
    Real.cos_nonneg_of_mem_Icc ⟨by linarith, le_of_lt hhalf⟩
  simp only [haversineDistance, Rat.cast_zero, sub_zero, zero_sub, zero_mul,
    neg_zero, Real.sin_zero, Real.cos_zero, mul_zero, zero_div, one_mul,
    mul_one, zero_add]
  have ha : Real.sin (((b : ℝ) - (a : ℝ)) * (Real.pi / 180) / 2) *
      Real.sin (((b : ℝ) - (a : ℝ)) * (Real.pi / 180) / 2) = Real.sin θ ^ 2 := by
    rw [← pow_two]
    exact hsin
  have hc : (1 : ℝ) - Real.sin θ ^ 2 = Real.cos θ ^ 2 := (Real.cos_sq' θ).symm
  rw [ha, Real.sqrt_sq hsinθ, hc, Real.sqrt_sq hcosθ,
    atan2_sin_cos θ (by linarith) hhalf]

/-- Haversine distance from an equator point to itself is zero. -/
theorem haversine_self_equator (x : ℚ) : haversineDistance (0, x) (0, x) = 0 := by
  have h := haversine_equator x x 0 le_rfl (by positivity)
    (by simp)
  simpa using h

/-- Haversine distance from (0,179) to (0,-179): the 358-degree longitude
gap folds back to 2 degrees of arc, about 222 km. -/
theorem haversine_179_m179 :
    haversineDistance (0, 179) (0, (-179 : ℚ)) = 6371 * (2 * (Real.pi / 180)) := by
  have hpi := Real.pi_pos
  refine haversine_equator 179 (-179) (Real.pi / 180) (by positivity)
    (by linarith) ?_
  have h1 : (((-179 : ℚ) : ℝ) - ((179 : ℚ) : ℝ)) * (Real.pi / 180) / 2 =
      -(Real.pi - Real.pi / 180) := by
    push_cast
    ring
  rw [h1, Real.sin_neg, neg_sq, Real.sin_pi_sub]

/-- Haversine distance from (0,-179) to (0,179), the symmetric direction. -/
theorem haversine_m179_179 :
    haversineDistance (0, (-179 : ℚ)) (0, 179) = 6371 * (2 * (Real.pi / 180)) := by
  have hpi := Real.pi_pos
  refine haversine_equator (-179) 179 (Real.pi / 180) (by positivity)
    (by linarith) ?_
  have h1 : (((179 : ℚ) : ℝ) - (((-179) : ℚ) : ℝ)) * (Real.pi / 180) / 2 =
      Real.pi - Real.pi / 180 := by
    push_cast
    ring
  rw [h1, Real.sin_pi_sub]

/-- Haversine distance from (0,179) to the origin (0,0): 179 degrees of
arc, about 19900 km. -/
theorem haversine_179_0 :
    haversineDistance (0, 179) (0, 0) = 6371 * (2 * (179 * Real.pi / 360)) := by
  have hpi := Real.pi_pos
  refine haversine_equator 179 0 (179 * Real.pi / 360) (by positivity)
    (by nlinarith) ?_
  have h1 : (((0 : ℚ) : ℝ) - ((179 : ℚ) : ℝ)) * (Real.pi / 180) / 2 =
      -(179 * Real.pi / 360) := by
    push_cast
    ring
  rw [h1, Real.sin_neg, neg_sq]

/-- The folded-back 358-degree gap is strictly within a 300 km threshold. -/
theorem haversine_short_lt : 6371 * (2 * (Real.pi / 180)) < 300 := by
  have h := Real.pi_lt_d2
  nlinarith

/-- The 179-degree gap is far beyond a 300 km threshold. -/
theorem haversine_long_not_lt : ¬ 6371 * (2 * (179 * Real.pi / 360)) < 300 := by
  have h := Real.pi_gt_three
  intro hcontra
  nlinarith

/-- Merging into a single group strictly within the threshold updates that
group. -/
theorem merge_singleton_lt {α : Type} [LinearOrder α]
    (dist : ℚ × ℚ → ℚ × ℚ → α) (t : α) (pt : ℚ × ℚ) (g : Group)
    (h : dist pt g.1 < t) :
    mergeIntoClosestGroup dist t pt [g] = [updateGroup pt g] := by
  unfold mergeIntoClosestGroup
  have hscan : scanClosestAux (fun g0 => dist pt g0.1) [g] 0 (none, t) =
      (some 0, dist pt g.1) := by
    simp [scanClosestAux, if_pos h]
  rw [hscan]
  simp

/-- A point not strictly within the threshold of a single group's centroid
starts a new group after it. -/
theorem merge_singleton_not_lt {α : Type} [LinearOrder α]
    (dist : ℚ × ℚ → ℚ × ℚ → α) (t : α) (pt : ℚ × ℚ) (g : Group)
    (h : ¬ dist pt g.1 < t) :
    mergeIntoClosestGroup dist t pt [g] = [g, ((pt.1, pt.2), 1)] := by
  unfold mergeIntoClosestGroup
  have hscan : scanClosestAux (fun g0 => dist pt g0.1) [g] 0 (none, t) =
      (none, t) := by
    simp [scanClosestAux, if_neg h]
  rw [hscan]
  simp

/-- One running-mean merge step turns the mean of `l` into the mean of
`l ++ [q]`. -/
theorem updateGroup_mean (l : List MPoint) (q : MPoint) (hl : l ≠ []) :
    updateGroup (q.lat, q.lon) (specArithmeticMean l, l.length) =
      (specArithmeticMean (l ++ [q]), l.length + 1) := by
  have hn : ((l.length : ℚ)) ≠ 0 := by
    exact_mod_cast Nat.pos_iff_ne_zero.mp (List.length_pos.mpr hl)
  unfold updateGroup specArithmeticMean
  simp only [List.map_append, List.sum_append, List.length_append, List.map_cons,
    List.map_nil, List.sum_cons, List.sum_nil, List.length_cons, List.length_nil,
    add_zero, zero_add, Nat.cast_add, Nat.cast_one]
  refine Prod.ext (Prod.ext ?_ ?_) rfl
  · field_simp
  · field_simp

/-- C7 (amended): when every point after the first lies strictly within the
threshold of the count-weighted mean of all the points before it, the
clusterer produces exactly one cluster, its count is the number of points
and its centroid is the coordinate-wise arithmetic mean. -/
theorem single_cluster_mean {α : Type} [LinearOrder α]
    (dist : ℚ × ℚ → ℚ × ℚ → α) (t : α) (ps : List MPoint) (hne : ps ≠ [])
    (hnear : ∀ k (hk : k < ps.length), 0 < k →
      dist ((ps.get ⟨k, hk⟩).lat, (ps.get ⟨k, hk⟩).lon)
        (specArithmeticMean (ps.take k)) < t) :
    groupCoordinates dist t ps = [(specArithmeticMean ps, ps.length)] := by
  revert hne hnear
  induction ps using List.reverseRecOn with
  | nil => exact fun hne _ => absurd rfl hne
  | append_singleton l q ih =>
      rintro - hnear
      by_cases hl : l = []
      · subst hl
        simp only [List.nil_append]
        have h1 : groupCoordinates dist t [q] = [((q.lat, q.lon), 1)] := rfl
        rw [h1]
        unfold specArithmeticMean
        simp
      · have hlen : 0 < l.length := List.length_pos.mpr hl
        have hnear_l : ∀ k (hk : k < l.length), 0 < k →
            dist ((l.get ⟨k, hk⟩).lat, (l.get ⟨k, hk⟩).lon)
              (specArithmeticMean (l.take k)) < t := by
          intro k hk hkpos
          have hk2 : k < (l ++ [q]).length := by
            simp only [List.length_append, List.length_cons, List.length_nil]
            omega
          have hget : (l ++ [q]).get ⟨k, hk2⟩ = l.get ⟨k, hk⟩ :=
            List.get_append k hk
          have htake : (l ++ [q]).take k = l.take k :=
            List.take_append_of_le_length (le_of_lt hk)
          have := hnear k hk2 hkpos
          rw [hget, htake] at this
          exact this
        have ihl := ih hl hnear_l
        rw [groupCoordinates_append dist t l q, ihl]
        have hq : dist (q.lat, q.lon) (specArithmeticMean l) < t := by
          have hk2 : l.length < (l ++ [q]).length := by
            simp
          have := hnear l.length hk2 hlen
          have hget : (l ++ [q]).get ⟨l.length, hk2⟩ = q := by
            simp [List.get_append_right]
          have htake : (l ++ [q]).take l.length = l := List.take_left l [q]
          rw [hget, htake] at this
          exact this
        rw [merge_singleton_lt dist t (q.lat, q.lon) (specArithmeticMean l, l.length) hq,
          updateGroup_mean l q hl]
        simp

/-- Witness for `single_cluster_mean`: with the constant zero distance and
threshold 1, two concrete points collapse into one cluster centred at their
mean. -/
theorem single_cluster_mean_witness :
    groupCoordinates (fun _ _ : ℚ × ℚ => (0 : ℚ)) (1 : ℚ)
        [⟨0, 0, "England", 1900, 1905, none⟩, ⟨0, 2, "England", 1900, 1905, none⟩] =
      [(specArithmeticMean
          [⟨0, 0, "England", 1900, 1905, none⟩, ⟨0, 2, "England", 1900, 1905, none⟩],
        ([⟨0, 0, "England", 1900, 1905, none⟩,
          ⟨0, 2, "England", 1900, 1905, none⟩] : List MPoint).length)] :=
  single_cluster_mean (fun _ _ : ℚ × ℚ => (0 : ℚ)) (1 : ℚ)
    [⟨0, 0, "England", 1900, 1905, none⟩, ⟨0, 2, "England", 1900, 1905, none⟩]
    (by decide) (by decide)

/-- Full clusterer run on `[pA, pB, pA]` with the haversine distance and a
300 km threshold: `pB` merges with `pA` but their longitude-averaged
centroid (0,0) lands on the far side of the globe, so the second copy of
`pA` starts a new cluster. -/
theorem groupCoordinates_antimeridian :
    groupCoordinates haversineDistance (300 : ℝ) [pA, pB, pA] =
      [(((0 : ℚ), (0 : ℚ)), 2), (((0 : ℚ), (179 : ℚ)), 1)] := by
  have h2 : haversineDistance ((0 : ℚ), (-179 : ℚ)) ((0 : ℚ), (179 : ℚ)) < 300 := by
    rw [haversine_m179_179]
    exact haversine_short_lt
  have h3 : ¬ haversineDistance ((0 : ℚ), (179 : ℚ)) ((0 : ℚ), (0 : ℚ)) < 300 := by
    rw [haversine_179_0]
    exact haversine_long_not_lt
  have e2 : mergeIntoClosestGroup haversineDistance (300 : ℝ)
      ((0 : ℚ), (-179 : ℚ)) [(((0 : ℚ), (179 : ℚ)), 1)] =
      [(((0 : ℚ), (0 : ℚ)), 2)] := by
    rw [merge_singleton_lt haversineDistance 300 ((0 : ℚ), (-179 : ℚ))
      ((((0 : ℚ), (179 : ℚ))), 1) h2]
    norm_num [updateGroup]
  have e3 : mergeIntoClosestGroup haversineDistance (300 : ℝ)
      ((0 : ℚ), (179 : ℚ)) [(((0 : ℚ), (0 : ℚ)), 2)] =
      [(((0 : ℚ), (0 : ℚ)), 2), (((0 : ℚ), (179 : ℚ)), 1)] := by
    rw [merge_singleton_not_lt haversineDistance 300 ((0 : ℚ), (179 : ℚ))
      ((((0 : ℚ), (0 : ℚ))), 2) h3]
  rw [groupCoordinates_eq_foldl]
  show mergeIntoClosestGroup haversineDistance (300 : ℝ) ((0 : ℚ), (179 : ℚ))
      (mergeIntoClosestGroup haversineDistance (300 : ℝ) ((0 : ℚ), (-179 : ℚ))
        (mergeIntoClosestGroup haversineDistance (300 : ℝ) ((0 : ℚ), (179 : ℚ)) [])) =
    [(((0 : ℚ), (0 : ℚ)), 2), (((0 : ℚ), (179 : ℚ)), 1)]
  have e1 : mergeIntoClosestGroup haversineDistance (300 : ℝ) ((0 : ℚ), (179 : ℚ))
      ([] : List Group) = [(((0 : ℚ), (179 : ℚ)), 1)] := rfl
  rw [e1, e2, e3]

/-- Counterexample for C7 as stated: the three points `pA, pB, pA` are
pairwise strictly within the 300 km clustering threshold of each other, yet
the clusterer returns two clusters, not one. -/
theorem single_cluster_counterexample :
    (∀ p ∈ [pA, pB, pA], ∀ q ∈ [pA, pB, pA],
      haversineDistance (p.lat, p.lon) (q.lat, q.lon) < 300) ∧
    groupCoordinates haversineDistance (300 : ℝ) [pA, pB, pA] =
      [(((0 : ℚ), (0 : ℚ)), 2), (((0 : ℚ), (179 : ℚ)), 1)] ∧
    (groupCoordinates haversineDistance (300 : ℝ) [pA, pB, pA]).length ≠ 1 := by
  refine ⟨?_, groupCoordinates_antimeridian, ?_⟩
  · have hmem : ∀ r ∈ [pA, pB, pA], r = pA ∨ r = pB := by decide
    intro p hp q hq
    have hself179 : haversineDistance ((0 : ℚ), (179 : ℚ)) ((0 : ℚ), (179 : ℚ)) < 300 := by
      rw [haversine_self_equator]
      norm_num
    have hselfm179 : haversineDistance ((0 : ℚ), (-179 : ℚ)) ((0 : ℚ), (-179 : ℚ)) < 300 := by
      rw [haversine_self_equator]
      norm_num
    have hAB : haversineDistance ((0 : ℚ), (179 : ℚ)) ((0 : ℚ), (-179 : ℚ)) < 300 := by
      rw [haversine_179_m179]
      exact haversine_short_lt
    have hBA : haversineDistance ((0 : ℚ), (-179 : ℚ)) ((0 : ℚ), (179 : ℚ)) < 300 := by
      rw [haversine_m179_179]
      exact haversine_short_lt
    rcases hmem p hp with rfl | rfl <;> rcases hmem q hq with rfl | rfl
    · exact hself179
    · exact hAB
    · exact hBA
    · exact hselfm179
  · rw [groupCoordinates_antimeridian]
    decide

/-- C6 (amended): the point-size scale maps count 0 to radius 0 and the
captured maximum count to the configured maximum radius via a square-root
relationship; `renderGroupedPoints` computes it from the dataset it is
given, but `updatePoints` renders a new point set without recomputing it. -/
theorem point_scale_semantics (m : ℕ) (R : ℚ) (c : ℕ) (s : MapState)
    (nd dataset : List MPoint) (mr gr : ℚ) (hm : 0 < m) :
    createSqrtScale m R 0 = 0 ∧
    createSqrtScale m R m = (R : ℝ) ∧
    createSqrtScale m R c * Real.sqrt (m : ℝ) = (R : ℝ) * Real.sqrt (c : ℝ) ∧
    (renderGroupedPoints s dataset mr gr).scaleMax =
      maxGroupCount (groupCoordinates haversineDistance ((gr : ℝ)) dataset) ∧
    (renderGroupedPoints s dataset mr gr).maxRadius = mr ∧
    (updatePoints s nd).rendered = nd ∧
    (updatePoints s nd).scaleMax = s.scaleMax := by
  have hmr : (0 : ℝ) < Real.sqrt (m : ℝ) :=
    Real.sqrt_pos.mpr (by exact_mod_cast hm)
  have hne : Real.sqrt (m : ℝ) ≠ 0 := ne_of_gt hmr
  refine ⟨?_, ?_, ?_, rfl, rfl, rfl, rfl⟩
  · simp [createSqrtScale]
  · rw [createSqrtScale, mul_div_assoc, div_self hne, mul_one]
  · rw [createSqrtScale, div_mul_cancel₀ _ hne]

/-- Witness for `point_scale_semantics` at max count 4, max radius 15. -/
theorem point_scale_semantics_witness :
    createSqrtScale 4 15 0 = 0 ∧
    createSqrtScale 4 15 4 = ((15 : ℚ) : ℝ) ∧
    createSqrtScale 4 15 2 * Real.sqrt ((4 : ℕ) : ℝ) =
      ((15 : ℚ) : ℝ) * Real.sqrt ((2 : ℕ) : ℝ) ∧
    (renderGroupedPoints mapInit [] 15 40).scaleMax =
      maxGroupCount (groupCoordinates haversineDistance (((40 : ℚ)) : ℝ) []) ∧
    (renderGroupedPoints mapInit [] 15 40).maxRadius = 15 ∧
    (updatePoints mapInit []).rendered = [] ∧
    (updatePoints mapInit []).scaleMax = mapInit.scaleMax :=
  point_scale_semantics 4 15 2 mapInit [] [] 15 40 (by decide)

/-- Clustering `[pA, pA]` at the 40 km threshold puts both copies in one
cluster of count 2. -/
theorem groupCoordinates_pA_pA :
    groupCoordinates haversineDistance (((40 : ℚ)) : ℝ) [pA, pA] =
      [(((0 : ℚ), (179 : ℚ)), 2)] := by
  have h0 : haversineDistance ((0 : ℚ), (179 : ℚ)) ((0 : ℚ), (179 : ℚ)) <
      (((40 : ℚ)) : ℝ) := by
    rw [haversine_self_equator]
    norm_num
  have e2 : mergeIntoClosestGroup haversineDistance (((40 : ℚ)) : ℝ)
      ((0 : ℚ), (179 : ℚ)) [(((0 : ℚ), (179 : ℚ)), 1)] =
      [(((0 : ℚ), (179 : ℚ)), 2)] := by
    rw [merge_singleton_lt haversineDistance (((40 : ℚ)) : ℝ) ((0 : ℚ), (179 : ℚ))
      ((((0 : ℚ), (179 : ℚ))), 1) h0]
    norm_num [updateGroup]
  rw [groupCoordinates_eq_foldl]
  show mergeIntoClosestGroup haversineDistance (((40 : ℚ)) : ℝ) ((0 : ℚ), (179 : ℚ))
      (mergeIntoClosestGroup haversineDistance (((40 : ℚ)) : ℝ) ((0 : ℚ), (179 : ℚ)) []) =
    [(((0 : ℚ), (179 : ℚ)), 2)]
  have e1 : mergeIntoClosestGroup haversineDistance (((40 : ℚ)) : ℝ)
      ((0 : ℚ), (179 : ℚ)) ([] : List Group) = [(((0 : ℚ), (179 : ℚ)), 1)] := rfl
  rw [e1, e2]

/-- Counterexample for C6 as stated: after `renderGroupedPoints` on
`[pA, pA]` and then `updatePoints` with the new point set `[pA]`, a new
point set has been rendered but the scale still carries the old maximum
count 2 instead of the new maximum 1, so it sends the current maximum
cluster count to a radius strictly below the configured maximum 15 where a
recomputed scale would reach exactly 15. -/
theorem point_scale_counterexample :
    (updatePoints (renderGroupedPoints mapInit [pA, pA] 15 40) [pA]).rendered = [pA] ∧
    (updatePoints (renderGroupedPoints mapInit [pA, pA] 15 40) [pA]).scaleMax = some 2 ∧
    maxGroupCount (groupCoordinates haversineDistance (((40 : ℚ)) : ℝ) [pA]) = some 1 ∧
    createSqrtScale 2 15 1 < 15 ∧
    createSqrtScale 1 15 1 = 15 := by
  have hrender : (updatePoints (renderGroupedPoints mapInit [pA, pA] 15 40) [pA]).scaleMax =
      maxGroupCount (groupCoordinates haversineDistance (((40 : ℚ)) : ℝ) [pA, pA]) := rfl
  refine ⟨rfl, ?_, rfl, ?_, ?_⟩
  · rw [hrender, groupCoordinates_pA_pA]
    rfl
  · have h2 : (1 : ℝ) < Real.sqrt 2 := by
      rw [show (1 : ℝ) = Real.sqrt 1 from (Real.sqrt_one).symm]
      exact Real.sqrt_lt_sqrt (by norm_num) (by norm_num)
    have : createSqrtScale 2 15 1 = 15 / Real.sqrt 2 := by
      rw [createSqrtScale]
      norm_num
    rw [this]
    exact div_lt_self (by norm_num) h2
  · rw [createSqrtScale]
    norm_num

end MappingMuseums
